import Mathlib

/-!
Shallow embedding of the connectivity prober in `src/ping.py` (class `Tools`),
together with theorems settling the specification claims about it.

Python-level conventions used throughout:
* machine strings are Lean `String`s, manipulated through their `List Char` data;
* Python `int` is Lean `Int`;
* Python `float` latencies are modelled as exact rationals `Rat` (no claim in
  scope depends on binary floating-point rounding);
* fallible external primitives (`subprocess.run`, `socket.create_connection`)
  are supplied by an `Env` record as `Except String _` values: `.error e`
  models the primitive raising an exception whose `str` is `e`;
* `try/except Exception` blocks are modelled by matching on those `Except`
  values exactly where the source catches;
* observable side effects (launching the ping subprocess, opening a TCP
  connection) are logged in an explicit effect trace.
-/

/-- Python whitespace characters stripped by `str.strip()` (ASCII subset). -/
def pyWs (c : Char) : Bool :=
  c = ' ' || c = '\t' || c = '\n' || c = '\r' || c = '\x0B' || c = '\x0C'

/-- Strip `pyWs` characters from both ends of a character list. -/
def pyStripList (cs : List Char) : List Char :=
  ((cs.dropWhile pyWs).reverse.dropWhile pyWs).reverse

/-- Python `str.strip()`. -/
def pyStrip (s : String) : String := String.mk (pyStripList s.data)

/-- Python `str.lower()` (ASCII letters). -/
def pyLower (s : String) : String := String.mk (s.data.map Char.toLower)

/-- Does `cs` start with the pattern `pat`? Models Python `str.startswith`. -/
def listStartsWith : List Char → List Char → Bool
  | [], _ => true
  | _ :: _, [] => false
  | p :: ps, c :: cs => p == c && listStartsWith ps cs

/-- Python substring test `pat in hay` (empty pattern is contained in anything). -/
def containsSub (pat : List Char) : List Char → Bool
  | [] => pat.isEmpty
  | c :: cs => listStartsWith pat (c :: cs) || containsSub pat cs

/-- Characters admitted by `Tools._ALLOWED_TARGET`, the regex
`^[A-Za-z0-9\.\-:%_\[\]]+$` of `src/ping.py` line 31. -/
def allowedChar (c : Char) : Bool :=
  c.isAlphanum || c = '.' || c = '-' || c = ':' || c = '%' || c = '_' ||
    c = '[' || c = ']'

/-- Models `Tools._sanitize` (`src/ping.py` lines 34-38): strip the target, reject it
when empty or when some character falls outside the allow-list. -/
def sanitize (target : String) : Option String :=
  let t := pyStrip target
  if t = "" then none
  else if t.data.all allowedChar then some t else none

/-- Digits of a Python integer literal after the first digit: single
underscores are allowed between digits only (CPython `int()` grammar). -/
def pyIntDigitsRest (acc : Nat) : List Char → Option Nat
  | [] => some acc
  | '_' :: c :: cs =>
      if c.isDigit then pyIntDigitsRest (acc * 10 + (c.toNat - 48)) cs else none
  | '_' :: [] => none
  | c :: cs =>
      if c.isDigit then pyIntDigitsRest (acc * 10 + (c.toNat - 48)) cs else none

/-- Unsigned part of Python `int()`: at least one digit, underscores only
between digits. -/
def pyIntDigits : List Char → Option Nat
  | [] => none
  | c :: cs => if c.isDigit then pyIntDigitsRest (c.toNat - 48) cs else none

/-- Python `int(s)`: optional surrounding whitespace, optional sign, digits
with optional single underscores between digits.  `none` models `ValueError`. -/
def pyInt (s : String) : Option Int :=
  match pyStripList s.data with
  | '-' :: rest => (pyIntDigits rest).map (fun n => -(n : Int))
  | '+' :: rest => (pyIntDigits rest).map (fun n => (n : Int))
  | rest => (pyIntDigits rest).map (fun n => (n : Int))

/-- Split a list at the first occurrence of `sep`, models `s.split(sep, 1)`
when it yields two pieces; `none` when `sep` does not occur. -/
def splitOnFirst (sep : Char) : List Char → Option (List Char × List Char)
  | [] => none
  | c :: cs =>
      if c = sep then some ([], cs)
      else
        match splitOnFirst sep cs with
        | some (a, b) => some (c :: a, b)
        | none => none

/-- Split a list at the last occurrence of `':'`, models
`target.rsplit(":", 1)` when a colon is present. -/
def rsplitLastColon (cs : List Char) : Option (List Char × List Char) :=
  match splitOnFirst ':' cs.reverse with
  | some (a, b) => some (b.reverse, a.reverse)
  | none => none

/-- Models `Tools._split_host_port` (`src/ping.py` lines 40-62).
The bracket branch models `target[1:].split("]", 1)` (the `except` clause
catches both the failed unpacking when no `]` occurs and a `ValueError`
raised by `int`); then the bare-IPv6 multi-colon branch; then the
`host:port` branch using `rsplit` and `int`. -/
def splitHostPort (target : String) : String × Option Int :=
  if listStartsWith ['['] target.data then
    match splitOnFirst ']' target.data.tail with
    | none => (target, none)
    | some (host, rest) =>
        if listStartsWith [':'] rest then
          match pyInt (String.mk rest.tail) with
          | some k => (String.mk host, some k)
          | none => (target, none)
        else (String.mk host, none)
  else if 1 < target.data.count ':' then (target, none)
  else if target.data.contains ':' then
    match rsplitLastColon target.data with
    | some (h, p) =>
        match pyInt (String.mk p) with
        | some k => (String.mk h, some k)
        | none => (target, none)
    | none => (target, none)
  else (target, none)

/-- Observable side effects of one `Tools.ping` invocation. -/
inductive Eff where
  | subprocess (cmd : List String)
  | tcpConnect (host : String) (port : Int)
deriving DecidableEq, Repr

/-- Models `Tools.Valves` (`src/ping.py` lines 24-29) with its class-level defaults. -/
structure Valves where
  packet_count : Int := 4
  timeout_seconds : Int := 5
  tcp_default_port : Int := 443
  tcp_attempts : Nat := 4
  tcp_timeout_seconds : Rat := 2
deriving Repr

/-- The default configuration object `Tools.Valves()`. -/
def dfltValves : Valves := {}

/-- Environment supplying the external primitives:
* `osName`: `platform.system()`;
* `which`: `shutil.which`;
* `run`: `subprocess.run` on a command line, returning
  `(returncode, stdout, stderr)` or raising (`Except.error`);
* `conn`: the i-th `socket.create_connection((host, port), timeout)` of the
  invocation, returning the measured latency in milliseconds or raising. -/
structure Env where
  osName : String
  which : String → Option String
  run : List String → Except String (Int × String × String)
  conn : Nat → String → Int → Rat → Except String Rat

/-- Search loop of `Tools._find_ping`: first `shutil.which` hit over a
candidate list. -/
def findPingGo (env : Env) : List String → Option String
  | [] => none
  | c :: cs =>
      match env.which c with
      | some p => some p
      | none => findPingGo env cs

/-- Models `Tools._find_ping` (`src/ping.py` lines 65-76): first `shutil.which` hit
over the fixed candidate list. -/
def find_ping (env : Env) : Option String :=
  findPingGo env ["ping", "/bin/ping", "/usr/bin/ping", "/sbin/ping", "/usr/sbin/ping"]

/-- Command line built by `Tools._icmp_ping` (`src/ping.py` lines 86-90). -/
def buildCmd (env : Env) (pingPath : String) (count timeout : Int)
    (host : String) : List String :=
  if containsSub "windows".data (pyLower env.osName).data then
    [pingPath, "-n", toString count, "-w", toString (timeout * 1000), host]
  else
    [pingPath, "-c", toString count, "-W", toString timeout, host]

/-- Models `Tools._icmp_ping` (`src/ping.py` lines 78-98): returns
`(ok, stdout, stderr)` plus the effect trace.  A raising `subprocess.run`
is caught and converted to `(False, "", str(e))`. -/
def icmp_ping (env : Env) (host : String) (count timeout : Int) :
    (Bool × String × String) × List Eff :=
  match find_ping env with
  | none => ((false, "", "ping binary not found inside the container"), [])
  | some pingPath =>
      let cmd := buildCmd env pingPath count timeout host
      let r :=
        match env.run cmd with
        | .ok (rc, out, err) => (rc == 0, out, err)
        | .error e => (false, "", e)
      (r, [Eff.subprocess cmd])

/-- ASCII caracters matched by the regex class `\s`. -/
def reSpace (c : Char) : Bool :=
  c = ' ' || c = '\t' || c = '\n' || c = '\r' || c = '\x0B' || c = '\x0C'

/-- Greedy `\d+`: at least one digit, then the rest. -/
def digits1 (cs : List Char) : Option (List Char × List Char) :=
  match cs.span Char.isDigit with
  | ([], _) => none
  | (ds, rest) => some (ds, rest)

/-- Greedy `[\d\.]+`: at least one digit-or-dot, then the rest. -/
def numDots1 (cs : List Char) : Option (List Char × List Char) :=
  match cs.span (fun c => c.isDigit || c = '.') with
  | ([], _) => none
  | (ds, rest) => some (ds, rest)

/-- Greedy `\s+`. -/
def ws1 (cs : List Char) : Option (List Char) :=
  match cs.span reSpace with
  | ([], _) => none
  | (_, rest) => some rest

/-- Greedy `\s*`. -/
def ws0 (cs : List Char) : List Char := (cs.span reSpace).2

/-- Case-insensitive literal match: the pattern (given in lowercase) must be a
prefix of the lowercased input; returns the rest. -/
def litCI : List Char → List Char → Option (List Char)
  | [], cs => some cs
  | _ :: _, [] => none
  | p :: ps, c :: cs => if c.toLower = p then litCI ps cs else none

/-- Greedy `\d+\.?\d*` (the `loss` group of `Tools._re_packets_unix`);
backtracking cannot help this pattern, so greedy matching is exact. -/
def lossNum (cs : List Char) : Option (List Char × List Char) := do
  let (d1, rest) ← digits1 cs
  match rest with
  | '.' :: rest2 =>
      let (d2, rest3) := rest2.span Char.isDigit
      some (d1 ++ '.' :: d2, rest3)
  | _ => some (d1, rest)

/-- Leftmost-match scan over every start position; also implements a lazy
`.*?` under `re.DOTALL` (the skipped characters may include newlines). -/
def scanAll {α : Type} (m : List Char → Option α) : List Char → Option α
  | [] => m []
  | c :: cs =>
      match m (c :: cs) with
      | some r => some r
      | none => scanAll m cs

/-- Lazy `.*?` without `re.DOTALL`: the skipped characters may not include a
newline, so the scan stops at the first `'\n'` it would have to skip. -/
def scanNoNL {α : Type} (m : List Char → Option α) : List Char → Option α
  | [] => m []
  | c :: cs =>
      match m (c :: cs) with
      | some r => some r
      | none => if c = '\n' then none else scanNoNL m cs


/-- One atom of a regular expression, for the sequential fragments of the four
parsing regexes of `src/ping.py` (lines 101-117).  In those fragments every
greedy atom is followed by an atom drawn from a disjoint character set, so
greedy matching without backtracking is faithful to the regex semantics. -/
inductive RStep where
  | lit (pat : String)
  | wsStar
  | wsPlus
  | capDigits
  | skipDigits
  | capNumDots
  | capLossNum
deriving Repr

/-- Run a sequence of regex atoms at the current position, accumulating the
captured groups in order; `none` models a failed match at this position. -/
def runSteps : List RStep → List Char → List String → Option (List String × List Char)
  | [], cs, acc => some (acc.reverse, cs)
  | .lit pat :: rest, cs, acc =>
      match litCI pat.data cs with
      | some cs2 => runSteps rest cs2 acc
      | none => none
  | .wsStar :: rest, cs, acc => runSteps rest (ws0 cs) acc
  | .wsPlus :: rest, cs, acc =>
      match ws1 cs with
      | some cs2 => runSteps rest cs2 acc
      | none => none
  | .capDigits :: rest, cs, acc =>
      match digits1 cs with
      | some (ds, cs2) => runSteps rest cs2 (String.mk ds :: acc)
      | none => none
  | .skipDigits :: rest, cs, acc =>
      match digits1 cs with
      | some (_, cs2) => runSteps rest cs2 acc
      | none => none
  | .capNumDots :: rest, cs, acc =>
      match numDots1 cs with
      | some (ds, cs2) => runSteps rest cs2 (String.mk ds :: acc)
      | none => none
  | .capLossNum :: rest, cs, acc =>
      match lossNum cs with
      | some (ds, cs2) => runSteps rest cs2 (String.mk ds :: acc)
      | none => none

/-- Head of `Tools._re_packets_unix` before the lazy gap:
`(?P<tx>\d+)\s+packets\s+transmitted,\s+(?P<rx>\d+)\s+received`
(`IGNORECASE`). -/
def unixPacketsHead : List RStep :=
  [.capDigits, .wsPlus, .lit "packets", .wsPlus, .lit "transmitted",
   .lit ",", .wsPlus, .capDigits, .wsPlus, .lit "received"]

/-- Tail of `Tools._re_packets_unix` after the lazy gap:
`(?P<loss>\d+\.?\d*)%\s+packet\s+loss`. -/
def unixLossTail : List RStep :=
  [.capLossNum, .lit "%", .wsPlus, .lit "packet", .wsPlus, .lit "loss"]

/-- Models `Tools._re_packets_unix` (`src/ping.py` lines 101-104) matched at one
start position; the `.*?` gap runs under `re.DOTALL`, hence `scanAll`. -/
def matchPacketsUnixAt (cs : List Char) : Option (String × String × String) :=
  match runSteps unixPacketsHead cs [] with
  | some ([tx, rx], cs2) =>
      match scanAll (fun c2 =>
          match runSteps unixLossTail c2 [] with
          | some ([loss], _) => some loss
          | _ => none) cs2 with
      | some loss => some (tx, rx, loss)
      | none => none
  | _ => none

/-- Models `re.search` with `Tools._re_packets_unix`. -/
def searchPacketsUnix (cs : List Char) : Option (String × String × String) :=
  scanAll matchPacketsUnixAt cs

/-- Tail of `Tools._re_rtt_unix` after the lazy gap:
`=\s*(?P<min>[\d\.]+)/(?P<avg>[\d\.]+)/(?P<max>[\d\.]+)/(?P<mdev>[\d\.]+)\s*ms`. -/
def unixRttTail : List RStep :=
  [.lit "=", .wsStar, .capNumDots, .lit "/", .capNumDots, .lit "/",
   .capNumDots, .lit "/", .capNumDots, .wsStar, .lit "ms"]

/-- Models `Tools._re_rtt_unix` (`src/ping.py` lines 105-108) matched at one start
position: `(?:round-trip|rtt).*?=...` with `IGNORECASE` but without
`re.DOTALL`, so the lazy gap may not cross a newline (`scanNoNL`).  The two
alternatives diverge at their second character, so ordered alternation
without backtracking is faithful. -/
def matchRttUnixAt (cs : List Char) : Option (String × String × String × String) :=
  let afterKey :=
    match litCI "round-trip".data cs with
    | some r => some r
    | none => litCI "rtt".data cs
  match afterKey with
  | none => none
  | some cs2 =>
      scanNoNL (fun c2 =>
        match runSteps unixRttTail c2 [] with
        | some ([mn, av, mx, md], _) => some (mn, av, mx, md)
        | _ => none) cs2

/-- Models `re.search` with `Tools._re_rtt_unix`. -/
def searchRttUnix (cs : List Char) : Option (String × String × String × String) :=
  scanAll matchRttUnixAt cs

/-- Models `Tools._re_packets_win` (`src/ping.py` lines 110-113):
`Packets:\s*Sent\s*=\s*(?P<tx>\d+),\s*Received\s*=\s*(?P<rx>\d+),\s*Lost\s*=
\s*\d+\s*\((?P<loss>\d+)%\s*loss\)`, `IGNORECASE`. -/
def winPacketsSteps : List RStep :=
  [.lit "packets:", .wsStar, .lit "sent", .wsStar, .lit "=", .wsStar,
   .capDigits, .lit ",", .wsStar, .lit "received", .wsStar, .lit "=",
   .wsStar, .capDigits, .lit ",", .wsStar, .lit "lost", .wsStar, .lit "=",
   .wsStar, .skipDigits, .wsStar, .lit "(", .capDigits, .lit "%", .wsStar,
   .lit "loss", .lit ")"]

/-- Models `Tools._re_packets_win` matched at one start position. -/
def matchPacketsWinAt (cs : List Char) : Option (String × String × String) :=
  match runSteps winPacketsSteps cs [] with
  | some ([tx, rx, loss], _) => some (tx, rx, loss)
  | _ => none

/-- Models `re.search` with `Tools._re_packets_win`. -/
def searchPacketsWin (cs : List Char) : Option (String × String × String) :=
  scanAll matchPacketsWinAt cs

/-- Models `Tools._re_rtt_win` (`src/ping.py` lines 114-117):
`Minimum\s*=\s*(?P<min>\d+)ms,\s*Maximum\s*=\s*(?P<max>\d+)ms,\s*Average\s*=
\s*(?P<avg>\d+)ms`, `IGNORECASE`. -/
def winRttSteps : List RStep :=
  [.lit "minimum", .wsStar, .lit "=", .wsStar, .capDigits, .lit "ms",
   .lit ",", .wsStar, .lit "maximum", .wsStar, .lit "=", .wsStar,
   .capDigits, .lit "ms", .lit ",", .wsStar, .lit "average", .wsStar,
   .lit "=", .wsStar, .capDigits, .lit "ms"]

/-- Models `Tools._re_rtt_win` matched at one start position; returns
`(min, max, avg)` in the regex's group order. -/
def matchRttWinAt (cs : List Char) : Option (String × String × String) :=
  match runSteps winRttSteps cs [] with
  | some ([mn, mx, av], _) => some (mn, mx, av)
  | _ => none

/-- Models `re.search` with `Tools._re_rtt_win`. -/
def searchRttWin (cs : List Char) : Option (String × String × String) :=
  scanAll matchRttWinAt cs

/-- Models `Tools._format_icmp_table` (`src/ping.py` lines 119-167): combine stdout
and stderr, prefer the Unix format, then the Windows format; missing RTT
fields render as the unknown marker `-`; `none` when neither packet regex
matches.  (The source also computes an unused local `os_name`.) -/
def format_icmp_table (host stdout stderr : String) : Option String :=
  let text := (stdout ++ "\n" ++ stderr).data
  match searchPacketsUnix text with
  | some (tx, rx, loss) =>
      let rtt :=
        match searchRttUnix text with
        | some r => r
        | none => ("-", "-", "-", "-")
      some (String.intercalate "\n"
        ["| Type | Host | Sent | Received | Loss | Min (ms) | Avg (ms) | Max (ms) | Mdev/Stddev (ms) |",
         "|---|---|---:|---:|---:|---:|---:|---:|---:|",
         "| ICMP | " ++ host ++ " | " ++ tx ++ " | " ++ rx ++ " | " ++ loss ++
           "% | " ++ rtt.1 ++ " | " ++ rtt.2.1 ++ " | " ++ rtt.2.2.1 ++ " | " ++
           rtt.2.2.2 ++ " |"])
  | none =>
      match searchPacketsWin text with
      | some (tx, rx, loss) =>
          let rtt :=
            match searchRttWin text with
            | some (mn, mx, av) => (mn, av, mx)
            | none => ("-", "-", "-")
          some (String.intercalate "\n"
            ["| Type | Host | Sent | Received | Loss | Min (ms) | Avg (ms) | Max (ms) |",
             "|---|---|---:|---:|---:|---:|---:|---:|",
             "| ICMP | " ++ host ++ " | " ++ tx ++ " | " ++ rx ++ " | " ++ loss ++
               "% | " ++ rtt.1 ++ " | " ++ rtt.2.1 ++ " | " ++ rtt.2.2 ++ " |"])
      | none => none

/-- Attempt loop of `Tools._tcp_ping` (`src/ping.py` lines 175-183): `i` is
the index of the next attempt, the second argument the number of attempts
still to run.  Every attempt runs regardless of earlier outcomes; a raising
`socket.create_connection` is caught and its text recorded.  (The 100 ms
inter-attempt sleep has no observable effect in this model.) -/
def tcp_ping_go (env : Env) (host : String) (port : Int) (timeout : Rat)
    (i : Nat) : Nat → (List Rat × List String) × List Eff
  | 0 => (([], []), [])
  | n + 1 =>
      let rest := tcp_ping_go env host port timeout (i + 1) n
      match env.conn i host port timeout with
      | .ok ms =>
          ((ms :: rest.1.1, rest.1.2), Eff.tcpConnect host port :: rest.2)
      | .error e =>
          ((rest.1.1, e :: rest.1.2), Eff.tcpConnect host port :: rest.2)

/-- Models `Tools._tcp_ping` (`src/ping.py` lines 170-184): returns
`(samples_ms, errors)` plus the effect trace. -/
def tcp_ping (env : Env) (host : String) (port : Int) (attempts : Nat)
    (timeout : Rat) : (List Rat × List String) × List Eff :=
  tcp_ping_go env host port timeout 0 attempts

/-- Decimal rendering of a nonnegative numerator already scaled by 10. -/
def fmt1core (n : Nat) : String := toString (n / 10) ++ "." ++ toString (n % 10)

/-- Models the `f"{x:.1f}"` rendering of a latency: one decimal digit,
round-half-even (exact rational arithmetic stands in for the float). -/
def fmt1 (q : Rat) : String :=
  let scaled : Rat := q * 10
  let fl : Int := scaled.floor
  let frac : Rat := scaled - (fl : Rat)
  let r : Int :=
    if frac > 1/2 then fl + 1
    else if frac < 1/2 then fl
    else if fl % 2 = 0 then fl else fl + 1
  if r < 0 then "-" ++ fmt1core (-r).toNat else fmt1core r.toNat

/-- Row list built by `Tools._format_tcp_table` (`src/ping.py` lines
186-227): summary row, optional per-attempt breakdown when more than one
attempt was configured, and up to the first 3 error strings.  With no
successful sample, min/avg/max are `float("nan")` and render as `nan`. -/
def tcpRows (host : String) (port : Int) (samples_ms : List Rat)
    (attempts : Nat) (errors : List String) : List String :=
  let ok := samples_ms.length
  let fail : Int := (attempts : Int) - (ok : Int)
  let stats :=
    match samples_ms with
    | [] => ("nan", "nan", "nan")
    | s :: rest =>
        (fmt1 (rest.foldl min s),
         fmt1 ((samples_ms.foldl (· + ·) 0) / (samples_ms.length : Rat)),
         fmt1 (rest.foldl max s))
  ["| Type | Host | Port | Attempts | Success | Fail | Min (ms) | Avg (ms) | Max (ms) |",
   "|---|---|---:|---:|---:|---:|---:|---:|---:|",
   "| TCP | " ++ host ++ " | " ++ toString port ++ " | " ++ toString attempts ++
     " | " ++ toString ok ++ " | " ++ toString fail ++ " | " ++ stats.1 ++
     " | " ++ stats.2.1 ++ " | " ++ stats.2.2 ++ " |"]
  ++ (if 1 < attempts then
        ["", "| Attempt | Latency (ms) |", "|---:|---:|"]
        ++ (if samples_ms = [] then ["| 1 | failed |"]
            else samples_ms.enum.map
              (fun iv => "| " ++ toString (iv.1 + 1) ++ " | " ++ fmt1 iv.2 ++ " |"))
      else [])
  ++ (if errors = [] then []
      else ["", "| Errors |", "|---|"]
        ++ (errors.take 3).map (fun e => "| " ++ e ++ " |"))

/-- Models `Tools._format_tcp_table`: the joined row list. -/
def format_tcp_table (host : String) (port : Int) (samples_ms : List Rat)
    (attempts : Nat) (errors : List String) : String :=
  String.intercalate "\n" (tcpRows host port samples_ms attempts errors)

/-- Python truthiness-based default `x or d` on an optional integer:
`None` and `0` are falsy (`src/ping.py` lines 240-241 and 268). -/
def pyOrInt (x : Option Int) (d : Int) : Int :=
  match x with
  | none => d
  | some 0 => d
  | some n => n

/-- Python `a or b` on strings: the empty string is falsy. -/
def pyOrS (a b : String) : String := if a = "" then b else a

/-- The fallback-trigger keyword list of `Tools.ping` (lines 257-266). -/
def fallbackKeywords : List String :=
  ["not found", "operation not permitted", "permission denied",
   "cap_net_raw", "icmp"]

/-- Keyword test of `Tools.ping` lines 257-266: does any trigger keyword
occur in the lower-cased failure reason? -/
def fallbackTrigger (reason : String) : Bool :=
  fallbackKeywords.any (fun k => containsSub k.data reason.data)

/-- Minimal success table of `Tools.ping` lines 250-252. -/
def minimalIcmpTable (host : String) : String :=
  "| Type | Host | Note |\n|---|---|---|\n| ICMP | " ++ host ++
    " | Success (unparsed output) |"

/-- Models `Tools.ping` (`src/ping.py` lines 228-276).  The result is the returned
report paired with the effect trace; the `Except` codomain records whether
an exception escapes the call (`Except.error` never occurs: every raising
primitive is wrapped where the source catches). -/
def ping (env : Env) (valves : Valves) (target : String)
    (count timeout : Option Int) : Except String (String × List Eff) :=
  match sanitize target with
  | none => .ok ("Invalid target", [])
  | some t =>
      let hp := splitHostPort t
      let host := hp.1
      let port := hp.2
      let count := pyOrInt count valves.packet_count
      let timeout := pyOrInt timeout valves.timeout_seconds
      let icmpR := icmp_ping env host count timeout
      let ok := icmpR.1.1
      let out := icmpR.1.2.1
      let err := icmpR.1.2.2
      let tr := icmpR.2
      if ok then
        match format_icmp_table host out err with
        | some table => .ok (table, tr)
        | none => .ok (minimalIcmpTable host, tr)
      else
        let icmpReason :=
          pyLower (pyOrS (pyStrip err) (pyOrS (pyStrip out) "ICMP ping failed"))
        if fallbackTrigger icmpReason then
          let p := pyOrInt port valves.tcp_default_port
          let tcpR := tcp_ping env host p valves.tcp_attempts valves.tcp_timeout_seconds
          .ok (format_tcp_table host p tcpR.1.1 valves.tcp_attempts tcpR.1.2,
               tr ++ tcpR.2)
        else
          .ok (pyOrS (pyStrip err) (pyOrS (pyStrip out) "Ping failed"), tr)

/-- Models `Tools.use_ping` (`src/ping.py` lines 277-278). -/
def use_ping (env : Env) (valves : Valves) (target : String) :
    Except String (String × List Eff) :=
  ping env valves target none none

/-- The list of distinct error strings in order of first occurrence; this is
the reading of "the first 3 distinct error strings" in the specification
(fuel-based recursion, the fuel starting at the list length). -/
def firstDistinctAux : Nat → List String → List String
  | 0, _ => []
  | _ + 1, [] => []
  | k + 1, x :: xs => x :: firstDistinctAux k (xs.filter (fun y => y != x))

/-- Distinct values of a list in order of first occurrence. -/
def firstDistinct (l : List String) : List String := firstDistinctAux l.length l

/-- The simulated POSIX ping output of the specification: packet summary
line plus RTT summary line. -/
def posixSim : String :=
  "4 packets transmitted, 4 received, 0% packet loss\nrtt min/avg/max/mdev = 10.0/12.5/15.0/1.2 ms"

/-- An environment with no usable primitives at all. -/
def envSink : Env :=
  { osName := "Linux"
    which := fun _ => none
    run := fun _ => .error "unavailable"
    conn := fun _ _ _ _ => .error "unreachable" }

/-- An environment whose ping subprocess fails with a raw-socket permission
error and whose TCP connections time out. -/
def envPerm : Env :=
  { osName := "Linux"
    which := fun c => if c = "ping" then some "/usr/bin/ping" else none
    run := fun _ => .ok (2, "", "ping: socket: Operation not permitted")
    conn := fun _ _ _ _ => .error "timed out" }

/-- An environment whose ping subprocess succeeds but emits unrecognizable
output. -/
def envUnparsed : Env :=
  { osName := "Linux"
    which := fun c => if c = "ping" then some "/usr/bin/ping" else none
    run := fun _ => .ok (0, "pong", "")
    conn := fun _ _ _ _ => .error "x" }

/-- An environment whose ping subprocess fails with empty stdout and stderr
and whose TCP connections are refused. -/
def envEmptyFail : Env :=
  { osName := "Linux"
    which := fun c => if c = "ping" then some "/usr/bin/ping" else none
    run := fun _ => .ok (1, "", "")
    conn := fun _ _ _ _ => .error "conn refused" }

/-- An environment whose ping subprocess fails with a trigger keyword only
in stdout while stderr carries an unrelated message. -/
def envMixed : Env :=
  { osName := "Linux"
    which := fun c => if c = "ping" then some "/usr/bin/ping" else none
    run := fun _ => .ok (2, "icmp blocked by admin", "weird failure")
    conn := fun _ _ _ _ => .error "unreachable" }

theorem data_append (a b : String) : (a ++ b).data = a.data ++ b.data := rfl

theorem mk_data (s : String) : String.mk s.data = s := by cases s; rfl


theorem mem_take_succ_of_mem_take {α : Type} {e : α} :
    ∀ (l : List α) (m : Nat), e ∈ l.take m → e ∈ l.take (m + 1) := by
  intro l
  induction l with
  | nil => intro m h; simp at h
  | cons x xs ih =>
      intro m h
      cases m with
      | zero => simp at h
      | succ m' =>
          simp only [List.take] at h ⊢
          rcases List.mem_cons.mp h with h' | h'
          · exact List.mem_cons.mpr (Or.inl h')
          · exact List.mem_cons.mpr (Or.inr (ih m' h'))

theorem mem_take_filter {e x : String} (hne : e ≠ x) :
    ∀ (l : List String) (m : Nat),
      e ∈ l.take m → e ∈ (l.filter (fun y => y != x)).take m := by
  intro l
  induction l with
  | nil => intro m h; simp at h
  | cons y ys ih =>
      intro m h
      cases m with
      | zero => simp at h
      | succ m' =>
          simp only [List.take] at h
          rcases List.mem_cons.mp h with h' | h'
          · subst h'
            have hy : (e != x) = true := bne_iff_ne.mpr hne
            simp only [List.filter, hy, List.take]
            exact List.mem_cons.mpr (Or.inl rfl)
          · by_cases hyx : (y != x) = true
            · simp only [List.filter, hyx, List.take]
              exact List.mem_cons.mpr (Or.inr (ih m' h'))
            · simp only [List.filter, Bool.not_eq_true] at hyx ⊢
              rw [hyx]
              exact mem_take_succ_of_mem_take _ _ (ih m' h')

theorem mem_take_firstDistinctAux :
    ∀ (k : Nat) (l : List String), l.length ≤ k →
      ∀ (m : Nat) (e : String), e ∈ l.take m → e ∈ (firstDistinctAux k l).take m := by
  intro k
  induction k with
  | zero =>
      intro l hl m e h
      have : l = [] := List.length_eq_zero.mp (Nat.le_zero.mp hl)
      subst this; simp at h
  | succ k' ih =>
      intro l hl m e h
      cases l with
      | nil => simp at h
      | cons x xs =>
          cases m with
          | zero => simp at h
          | succ m' =>
              simp only [firstDistinctAux, List.take]
              simp only [List.take] at h
              rcases List.mem_cons.mp h with h' | h'
              · exact List.mem_cons.mpr (Or.inl h')
              · by_cases hex : e = x
                · exact List.mem_cons.mpr (Or.inl hex)
                · have hlen : (xs.filter (fun y => y != x)).length ≤ k' :=
                    le_trans (List.length_filter_le _ _)
                      (Nat.succ_le_succ_iff.mp (by simpa using hl))
                  have := ih _ hlen m' e (mem_take_filter hex xs m' h')
                  exact List.mem_cons.mpr (Or.inr this)

theorem mem_take_firstDistinct (l : List String) (m : Nat) (e : String)
    (h : e ∈ l.take m) : e ∈ (firstDistinct l).take m :=
  mem_take_firstDistinctAux l.length l le_rfl m e h

theorem tcp_ping_go_spec (env : Env) (host : String) (port : Int)
    (timeout : Rat) :
    ∀ (n i : Nat),
      (tcp_ping_go env host port timeout i n).1.1.length
          + (tcp_ping_go env host port timeout i n).1.2.length = n
      ∧ (tcp_ping_go env host port timeout i n).2
          = List.replicate n (Eff.tcpConnect host port) := by
  intro n
  induction n with
  | zero => intro i; simp [tcp_ping_go]
  | succ n' ih =>
      intro i
      have h := ih (i + 1)
      simp only [tcp_ping_go]
      cases env.conn i host port timeout with
      | ok ms =>
          simp only [List.length_cons, List.replicate]
          exact ⟨by omega, by rw [h.2]⟩
      | error e =>
          simp only [List.length_cons, List.replicate]
          exact ⟨by omega, by rw [h.2]⟩

/-- C5: for every host, port, attempt count N, and timeout, the TCP probing
loop performs exactly N sequential connection attempts regardless of earlier
successes, and every attempt contributes exactly one record — a latency
sample or an error string — so samples + errors = N. -/
theorem tcp_ping_attempt_conservation (env : Env) (host : String)
    (port : Int) (attempts : Nat) (timeout : Rat) :
    (tcp_ping env host port attempts timeout).1.1.length
        + (tcp_ping env host port attempts timeout).1.2.length = attempts
    ∧ (tcp_ping env host port attempts timeout).2
        = List.replicate attempts (Eff.tcpConnect host port) :=
  tcp_ping_go_spec env host port timeout attempts 0

/-- C4: when the TCP fallback records zero successful attempts, the report is
still a valid TCP table: the summary row shows Success=0, Fail equal to the
configured attempt count, and the unknown marker `nan` for min, avg and max
latency; the error table holds at most 3 rows, each drawn from the first 3
distinct error strings. -/
theorem tcp_table_zero_success (host : String) (port : Int) (attempts : Nat)
    (errors : List String) :
    tcpRows host port [] attempts errors =
      ["| Type | Host | Port | Attempts | Success | Fail | Min (ms) | Avg (ms) | Max (ms) |",
       "|---|---|---:|---:|---:|---:|---:|---:|---:|",
       "| TCP | " ++ host ++ " | " ++ toString port ++ " | " ++
         toString attempts ++ " | " ++ "0" ++ " | " ++
         toString (attempts : Int) ++ " | " ++ "nan" ++ " | " ++ "nan" ++
         " | " ++ "nan" ++ " |"]
      ++ (if 1 < attempts then
            ["", "| Attempt | Latency (ms) |", "|---:|---:|", "| 1 | failed |"]
          else [])
      ++ (if errors = [] then []
          else ["", "| Errors |", "|---|"]
            ++ (errors.take 3).map (fun e => "| " ++ e ++ " |"))
    ∧ format_tcp_table host port [] attempts errors
        = String.intercalate "\n" (tcpRows host port [] attempts errors)
    ∧ (errors.take 3).length ≤ 3
    ∧ ∀ e ∈ errors.take 3, e ∈ (firstDistinct errors).take 3 := by
  refine ⟨?_, rfl, ?_, ?_⟩
  · have h0 : toString (0 : Nat) = "0" := rfl
    simp [tcpRows, h0]
  · calc (errors.take 3).length = min 3 errors.length := List.length_take 3 errors
      _ ≤ 3 := min_le_left _ _
  · intro e he
    exact mem_take_firstDistinct errors 3 e he

theorem splitOnFirst_of_not_mem {sep : Char} :
    ∀ {l : List Char}, sep ∉ l → splitOnFirst sep l = none := by
  intro l
  induction l with
  | nil => intro _; rfl
  | cons c cs ih =>
      intro h
      have hc : c ≠ sep := fun he => h (he ▸ List.mem_cons_self c cs)
      have hcs : sep ∉ cs := fun hm => h (List.mem_cons_of_mem c hm)
      simp only [splitOnFirst, if_neg hc, ih hcs]

theorem splitOnFirst_append {sep : Char} :
    ∀ (l r : List Char), sep ∉ l → splitOnFirst sep (l ++ sep :: r) = some (l, r) := by
  intro l
  induction l with
  | nil => intro r _; simp [splitOnFirst]
  | cons c cs ih =>
      intro r h
      have hc : c ≠ sep := fun he => h (he ▸ List.mem_cons_self c cs)
      have hcs : sep ∉ cs := fun hm => h (List.mem_cons_of_mem c hm)
      simp only [List.cons_append, splitOnFirst, if_neg hc, List.append_eq, ih r hcs]

theorem rsplitLastColon_append (h p : List Char) (hp : ':' ∉ p) :
    rsplitLastColon (h ++ ':' :: p) = some (h, p) := by
  have hrev : (h ++ ':' :: p).reverse = p.reverse ++ ':' :: h.reverse := by
    rw [List.reverse_append, List.reverse_cons, List.append_assoc,
      List.singleton_append]
  have hmem : ':' ∉ p.reverse := fun hm => hp (List.mem_reverse.mp hm)
  simp only [rsplitLastColon, hrev, splitOnFirst_append p.reverse h.reverse hmem,
    List.reverse_reverse]

theorem listStartsWith_no_of_head {c : Char} {cs : List Char} {p : Char}
    (h : c ≠ p) : listStartsWith [p] (c :: cs) = false := by
  simp only [listStartsWith, Bool.and_eq_false_iff]
  exact Or.inl (beq_eq_false_iff_ne.mpr (fun he => h he.symm))

/-- Splitting a bracketed target carrying a valid port: behaviour of the
`[ipv6]:port` branch of `Tools._split_host_port`. -/
theorem splitHostPort_bracket_port (h p : String) (n : Int)
    (hm : ']' ∉ h.data) (hp : pyInt p = some n) :
    splitHostPort ("[" ++ h ++ "]:" ++ p) = (h, some n) := by
  have hdata : ("[" ++ h ++ "]:" ++ p).data
      = '[' :: (h.data ++ ']' :: ':' :: p.data) := by
    simp only [data_append, List.append_assoc]
    rfl
  simp only [splitHostPort, hdata, listStartsWith, List.tail_cons]
  rw [splitOnFirst_append h.data (':' :: p.data) hm]
  simp only [listStartsWith, List.tail_cons, mk_data, hp]
  simp

/-- Bracketed target whose port suffix is not a valid integer: the caught
`ValueError` yields the whole string as host with no port. -/
theorem splitHostPort_bracket_bad_port (h p : String)
    (hm : ']' ∉ h.data) (hp : pyInt p = none) :
    splitHostPort ("[" ++ h ++ "]:" ++ p) = ("[" ++ h ++ "]:" ++ p, none) := by
  have hdata : ("[" ++ h ++ "]:" ++ p).data
      = '[' :: (h.data ++ ']' :: ':' :: p.data) := by
    simp only [data_append, List.append_assoc]
    rfl
  simp only [splitHostPort, hdata, listStartsWith, List.tail_cons]
  rw [splitOnFirst_append h.data (':' :: p.data) hm]
  simp only [listStartsWith, List.tail_cons, mk_data, hp]
  simp

/-- Bracketed target with no `:` suffix: bracketed text as host, no port. -/
theorem splitHostPort_bracket_no_port (h : String) (hm : ']' ∉ h.data) :
    splitHostPort ("[" ++ h ++ "]") = (h, none) := by
  have hdata : ("[" ++ h ++ "]").data = '[' :: (h.data ++ ']' :: []) := by
    simp only [data_append, List.append_assoc]
    rfl
  simp only [splitHostPort, hdata, listStartsWith, List.tail_cons]
  rw [splitOnFirst_append h.data [] hm]
  simp only [listStartsWith, mk_data]
  simp

/-- Bracketed target with no closing bracket: the failed unpacking of
`split("]", 1)` is caught and the whole string is the host. -/
theorem splitHostPort_bracket_unclosed (h : String) (hm : ']' ∉ h.data) :
    splitHostPort ("[" ++ h) = ("[" ++ h, none) := by
  have hdata : ("[" ++ h).data = '[' :: h.data := by
    simp only [data_append]
    rfl
  simp only [splitHostPort, hdata, listStartsWith, List.tail_cons,
    splitOnFirst_of_not_mem hm]
  simp

theorem listStartsWith_single_false {p : Char} {l : List Char}
    (hh : l.head? ≠ some p) : listStartsWith [p] l = false := by
  cases l with
  | nil => rfl
  | cons c cs =>
      refine listStartsWith_no_of_head (fun he => hh ?_)
      rw [he]; rfl

/-- A target not starting with `[` and holding more than one colon is a bare
IPv6 host: no port extraction is attempted. -/
theorem splitHostPort_multi_colon (t : String)
    (hh : t.data.head? ≠ some '[') (hc : 1 < t.data.count ':') :
    splitHostPort t = (t, none) := by
  simp only [splitHostPort, listStartsWith_single_false hh, if_pos hc]
  simp

/-- A target not starting with `[` with exactly one colon and an integer
suffix: host before the colon, integer suffix as the port. -/
theorem splitHostPort_one_colon_port (h p : String) (n : Int)
    (hh : (h ++ ":" ++ p).data.head? ≠ some '[')
    (hch : ':' ∉ h.data) (hcp : ':' ∉ p.data) (hp : pyInt p = some n) :
    splitHostPort (h ++ ":" ++ p) = (h, some n) := by
  have hdata : (h ++ ":" ++ p).data = h.data ++ ':' :: p.data := by
    simp only [data_append, List.append_assoc]
    rfl
  have hcount : (h.data ++ ':' :: p.data).count ':' = 1 := by
    rw [List.count_append, List.count_cons_self, List.count_eq_zero.mpr hch,
      List.count_eq_zero.mpr hcp]
  have hmem : ':' ∈ h.data ++ ':' :: p.data :=
    List.mem_append_right _ (List.mem_cons_self ':' p.data)
  simp only [splitHostPort, hdata, listStartsWith_single_false (hdata ▸ hh),
    hcount, List.elem_eq_true_of_mem hmem,
    rsplitLastColon_append h.data p.data hcp, mk_data, hp]
  simp [mk_data]

/-- A target not starting with `[` with exactly one colon and a non-integer
suffix: the caught `ValueError` yields the whole string as host, no port. -/
theorem splitHostPort_one_colon_bad (h p : String)
    (hh : (h ++ ":" ++ p).data.head? ≠ some '[')
    (hch : ':' ∉ h.data) (hcp : ':' ∉ p.data) (hp : pyInt p = none) :
    splitHostPort (h ++ ":" ++ p) = (h ++ ":" ++ p, none) := by
  have hdata : (h ++ ":" ++ p).data = h.data ++ ':' :: p.data := by
    simp only [data_append, List.append_assoc]
    rfl
  have hcount : (h.data ++ ':' :: p.data).count ':' = 1 := by
    rw [List.count_append, List.count_cons_self, List.count_eq_zero.mpr hch,
      List.count_eq_zero.mpr hcp]
  have hmem : ':' ∈ h.data ++ ':' :: p.data :=
    List.mem_append_right _ (List.mem_cons_self ':' p.data)
  simp only [splitHostPort, hdata, listStartsWith_single_false (hdata ▸ hh),
    hcount, List.elem_eq_true_of_mem hmem,
    rsplitLastColon_append h.data p.data hcp, mk_data, hp]
  simp

/-- A target not starting with `[` and holding no colon at all: the whole
string is the host, no port. -/
theorem splitHostPort_no_colon (t : String)
    (hh : t.data.head? ≠ some '[') (hc : ':' ∉ t.data) :
    splitHostPort t = (t, none) := by
  have hcontains : t.data.contains ':' = false := by simpa using hc
  have hcount : ¬ 1 < t.data.count ':' := by
    rw [List.count_eq_zero.mpr hc]; omega
  simp only [splitHostPort, listStartsWith_single_false hh, if_neg hcount,
    hcontains]
  simp

/-- C3: for every sanitized target, host/port parsing behaves as: a
bracketed target yields the bracketed text as host and the numeric suffix
after the closing bracket plus colon as port, with the whole string as host
and no port on any parse failure (missing closing bracket, non-integer
suffix); a target with more than one colon yields the whole string as host
with no port; a target with exactly one colon yields the prefix as host and
the integer suffix as port, or the whole original string as host with no
port when the suffix is not a valid integer; any other target is the host
with no port. -/
theorem split_host_port_cases (t h p : String) (n : Int) :
    (']' ∉ h.data → pyInt p = some n →
      splitHostPort ("[" ++ h ++ "]:" ++ p) = (h, some n))
    ∧ (']' ∉ h.data → pyInt p = none →
      splitHostPort ("[" ++ h ++ "]:" ++ p) = ("[" ++ h ++ "]:" ++ p, none))
    ∧ (']' ∉ h.data → splitHostPort ("[" ++ h ++ "]") = (h, none))
    ∧ (']' ∉ h.data → splitHostPort ("[" ++ h) = ("[" ++ h, none))
    ∧ (t.data.head? ≠ some '[' → 1 < t.data.count ':' →
        splitHostPort t = (t, none))
    ∧ ((h ++ ":" ++ p).data.head? ≠ some '[' → ':' ∉ h.data → ':' ∉ p.data →
        pyInt p = some n → splitHostPort (h ++ ":" ++ p) = (h, some n))
    ∧ ((h ++ ":" ++ p).data.head? ≠ some '[' → ':' ∉ h.data → ':' ∉ p.data →
        pyInt p = none → splitHostPort (h ++ ":" ++ p) = (h ++ ":" ++ p, none))
    ∧ (t.data.head? ≠ some '[' → ':' ∉ t.data → splitHostPort t = (t, none)) :=
  ⟨fun hm hp => splitHostPort_bracket_port h p n hm hp,
   fun hm hp => splitHostPort_bracket_bad_port h p hm hp,
   fun hm => splitHostPort_bracket_no_port h hm,
   fun hm => splitHostPort_bracket_unclosed h hm,
   fun hh hc => splitHostPort_multi_colon t hh hc,
   fun hh hch hcp hp => splitHostPort_one_colon_port h p n hh hch hcp hp,
   fun hh hch hcp hp => splitHostPort_one_colon_bad h p hh hch hcp hp,
   fun hh hc => splitHostPort_no_colon t hh hc⟩

/-- Witness for C3 on the specification's four example targets. -/
theorem split_host_port_cases_witness :
    splitHostPort "[2001:db8::1]:8080" = ("2001:db8::1", some 8080)
    ∧ splitHostPort "2001:db8::1" = ("2001:db8::1", none)
    ∧ splitHostPort "example.com:9999" = ("example.com", some 9999)
    ∧ splitHostPort "example.com:abc" = ("example.com:abc", none) :=
  ⟨(split_host_port_cases "" "2001:db8::1" "8080" 8080).1
      (by decide) (by decide),
   (split_host_port_cases "2001:db8::1" "" "" 0).2.2.2.2.1
      (by decide) (by decide),
   (split_host_port_cases "" "example.com" "9999" 9999).2.2.2.2.2.1
      (by decide) (by decide) (by decide) (by decide),
   (split_host_port_cases "" "example.com" "abc" 0).2.2.2.2.2.2.1
      (by decide) (by decide) (by decide) (by decide)⟩

/-- C8 counterexample: a parsed port need not lie in 1–65535; the target
`example.com:70000` parses to port 70000 with no range check. -/
theorem parsed_port_range_counterexample :
    splitHostPort "example.com:70000" = ("example.com", some 70000)
    ∧ ¬ (1 ≤ (70000 : Int) ∧ (70000 : Int) ≤ 65535) :=
  ⟨by decide, by decide⟩

theorem splitOnFirst_eq_some {sep : Char} :
    ∀ {l a b : List Char}, splitOnFirst sep l = some (a, b) → l = a ++ sep :: b := by
  intro l
  induction l with
  | nil => intro a b h; simp [splitOnFirst] at h
  | cons c cs ih =>
      intro a b h
      by_cases hc : c = sep
      · subst hc
        simp only [splitOnFirst, eq_self_iff_true, if_true, Option.some.injEq,
          Prod.mk.injEq] at h
        rcases h with ⟨rfl, rfl⟩
        simp
      · simp only [splitOnFirst, if_neg hc] at h
        cases hsp : splitOnFirst sep cs with
        | none => rw [hsp] at h; simp at h
        | some ab =>
            obtain ⟨a2, b2⟩ := ab
            rw [hsp] at h
            simp only [Option.some.injEq, Prod.mk.injEq] at h
            rcases h with ⟨rfl, rfl⟩
            rw [ih hsp]
            simp

theorem rsplitLastColon_eq_some {cs hh pp : List Char}
    (h : rsplitLastColon cs = some (hh, pp)) : cs = hh ++ ':' :: pp := by
  unfold rsplitLastColon at h
  cases hsp : splitOnFirst ':' cs.reverse with
  | none => rw [hsp] at h; simp at h
  | some ab =>
      obtain ⟨a, b⟩ := ab
      rw [hsp] at h
      simp only [Option.some.injEq, Prod.mk.injEq] at h
      have hrev : cs.reverse = a ++ ':' :: b := splitOnFirst_eq_some hsp
      have : cs = (a ++ ':' :: b).reverse := by
        rw [← hrev, List.reverse_reverse]
      rw [this, List.reverse_append, List.reverse_cons, List.append_assoc,
        List.singleton_append, ← h.1, ← h.2]

theorem listStartsWith_colon_shape {rest : List Char}
    (h : listStartsWith [':'] rest = true) : rest = ':' :: rest.tail := by
  cases rest with
  | nil => simp [listStartsWith] at h
  | cons c cs =>
      simp only [listStartsWith, Bool.and_true, beq_iff_eq] at h
      rw [← h, List.tail_cons]

/-- C8 amended: for every target from which a port is parsed — bracketed or
`host:port` — the resulting port is exactly the Python `int()` value of a
trailing segment of the target, possibly 0, negative, or above 65535: the
code performs no 1–65535 range validation. -/
theorem parsed_port_unvalidated (t h : String) (n : Int)
    (hp : splitHostPort t = (h, some n)) :
    ∃ pre pseg : List Char,
      t.data = pre ++ pseg ∧ pyInt (String.mk pseg) = some n := by
  unfold splitHostPort at hp
  by_cases hb : listStartsWith ['['] t.data = true
  · rw [if_pos hb] at hp
    obtain ⟨cs, hcs⟩ : ∃ cs, t.data = '[' :: cs := by
      cases ht : t.data with
      | nil => rw [ht] at hb; simp [listStartsWith] at hb
      | cons c cs0 =>
          rw [ht] at hb
          simp only [listStartsWith, Bool.and_true, beq_iff_eq] at hb
          exact ⟨cs0, by rw [← hb]⟩
    rw [hcs, List.tail_cons] at hp
    cases hsp : splitOnFirst ']' cs with
    | none => rw [hsp] at hp; simp at hp
    | some ab =>
        obtain ⟨host0, rest⟩ := ab
        rw [hsp] at hp
        simp only at hp
        by_cases hcol : listStartsWith [':'] rest = true
        · rw [if_pos hcol] at hp
          cases hpi : pyInt (String.mk rest.tail) with
          | none => rw [hpi] at hp; simp at hp
          | some k =>
              rw [hpi] at hp
              simp only [Prod.mk.injEq, Option.some.injEq] at hp
              refine ⟨'[' :: (host0 ++ [']', ':']), rest.tail, ?_, ?_⟩
              · rw [hcs, splitOnFirst_eq_some hsp,
                  listStartsWith_colon_shape hcol]
                simp
              · rw [hpi, hp.2]
        · rw [if_neg hcol] at hp
          simp at hp
  · rw [if_neg hb] at hp
    by_cases hcnt : 1 < t.data.count ':'
    · rw [if_pos hcnt] at hp; simp at hp
    · rw [if_neg hcnt] at hp
      by_cases hcont : t.data.contains ':' = true
      · rw [if_pos hcont] at hp
        cases hrs : rsplitLastColon t.data with
        | none => rw [hrs] at hp; simp at hp
        | some ab =>
            obtain ⟨hh0, pp⟩ := ab
            rw [hrs] at hp
            simp only at hp
            cases hpi : pyInt (String.mk pp) with
            | none => rw [hpi] at hp; simp at hp
            | some k =>
                rw [hpi] at hp
                simp only [Prod.mk.injEq, Option.some.injEq] at hp
                refine ⟨hh0 ++ [':'], pp, ?_, ?_⟩
                · rw [rsplitLastColon_eq_some hrs]
                  simp
                · rw [hpi, hp.2]
      · rw [if_neg hcont] at hp; simp at hp

/-- Witness for the amended C8: out-of-range ports are returned as parsed,
both for a plain `host:port` target and for a bracketed target. -/
theorem parsed_port_unvalidated_witness :
    (∃ pre pseg : List Char,
      "example.com:70000".data = pre ++ pseg
        ∧ pyInt (String.mk pseg) = some (70000 : Int))
    ∧ (∃ pre pseg : List Char,
        "[2001:db8::1]:70000".data = pre ++ pseg
          ∧ pyInt (String.mk pseg) = some (70000 : Int))
    ∧ 65535 < (70000 : Int) :=
  ⟨parsed_port_unvalidated "example.com:70000" "example.com" 70000 (by decide),
   parsed_port_unvalidated "[2001:db8::1]:70000" "2001:db8::1" 70000 (by decide),
   by decide⟩

/-- C2: a target that is empty after trimming or holds a character outside
the allow-list yields exactly "Invalid target" with an empty effect trace —
no subprocess invocation, no socket call. -/
theorem ping_invalid_target (env : Env) (valves : Valves) (target : String)
    (count timeout : Option Int)
    (h : pyStrip target = ""
        ∨ ∃ c ∈ (pyStrip target).data, allowedChar c = false) :
    ping env valves target count timeout = .ok ("Invalid target", []) := by
  have hs : sanitize target = none := by
    unfold sanitize
    rcases h with h1 | ⟨c, hc, hac⟩
    · simp [h1]
    · have hall : (pyStrip target).data.all allowedChar = false := by
        refine List.all_eq_false.mpr ⟨c, hc, ?_⟩
        simp [hac]
      by_cases he : pyStrip target = ""
      · simp [he]
      · simp [he, hall]
  simp [ping, hs]

/-- C9: ping is total over every environment, including environments whose
subprocess and connection primitives raise: every branch returns an
`Except.ok` report, so no exception propagates to the caller. -/
theorem ping_total (env : Env) (valves : Valves) (target : String)
    (count timeout : Option Int) :
    ∃ report trace, ping env valves target count timeout = .ok (report, trace) := by
  unfold ping
  split
  · exact ⟨_, _, rfl⟩
  · dsimp only
    split
    · split
      · exact ⟨_, _, rfl⟩
      · exact ⟨_, _, rfl⟩
    · split
      · exact ⟨_, _, rfl⟩
      · exact ⟨_, _, rfl⟩

theorem icmp_ping_trace_shape (env : Env) (host : String) (count timeout : Int) :
    (icmp_ping env host count timeout).2 = []
    ∨ ∃ cmd, (icmp_ping env host count timeout).2 = [Eff.subprocess cmd] := by
  unfold icmp_ping
  cases find_ping env with
  | none => exact Or.inl rfl
  | some pp => exact Or.inr ⟨_, rfl⟩

theorem pyOrInt_some_ne (m d : Int) (h : m ≠ 0) : pyOrInt (some m) d = m := by
  cases m with
  | ofNat k =>
      cases k with
      | zero => exact absurd rfl h
      | succ k' => rfl
  | negSucc k => rfl

/-- C7: when the ICMP subprocess exits successfully but the combined output
matches neither the POSIX nor the Windows format, ping returns the minimal
one-row success table noting "unparsed output" — never an error string. -/
theorem ping_unparsed_success (env : Env) (valves : Valves) (target : String)
    (count timeout : Option Int) (t out err : String) (tr : List Eff)
    (hs : sanitize target = some t)
    (hi : icmp_ping env (splitHostPort t).1 (pyOrInt count valves.packet_count)
            (pyOrInt timeout valves.timeout_seconds) = ((true, out, err), tr))
    (hf : format_icmp_table (splitHostPort t).1 out err = none) :
    ping env valves target count timeout
      = .ok (minimalIcmpTable (splitHostPort t).1, tr) := by
  simp only [ping, hs, hi, hf]
  simp

/-- C10: when the ICMP attempt fails with stdout and stderr both empty after
trimming, the substituted default reason "ICMP ping failed" contains the
trigger substring "icmp", so ping always proceeds to the TCP fallback and
returns the TCP table — never a bare failure string. -/
theorem ping_empty_failure_falls_back (env : Env) (valves : Valves)
    (target : String) (count timeout : Option Int) (t out err : String)
    (tr : List Eff)
    (hs : sanitize target = some t)
    (hi : icmp_ping env (splitHostPort t).1 (pyOrInt count valves.packet_count)
            (pyOrInt timeout valves.timeout_seconds) = ((false, out, err), tr))
    (ho : pyStrip out = "") (he : pyStrip err = "") :
    ping env valves target count timeout =
      .ok (format_tcp_table (splitHostPort t).1
            (pyOrInt (splitHostPort t).2 valves.tcp_default_port)
            (tcp_ping env (splitHostPort t).1
              (pyOrInt (splitHostPort t).2 valves.tcp_default_port)
              valves.tcp_attempts valves.tcp_timeout_seconds).1.1
            valves.tcp_attempts
            (tcp_ping env (splitHostPort t).1
              (pyOrInt (splitHostPort t).2 valves.tcp_default_port)
              valves.tcp_attempts valves.tcp_timeout_seconds).1.2,
          tr ++ (tcp_ping env (splitHostPort t).1
                  (pyOrInt (splitHostPort t).2 valves.tcp_default_port)
                  valves.tcp_attempts valves.tcp_timeout_seconds).2) := by
  have htrig : fallbackTrigger
      (pyLower (pyOrS (pyStrip err) (pyOrS (pyStrip out) "ICMP ping failed")))
      = true := by
    rw [ho, he]; decide
  simp only [ping, hs, hi, htrig]
  simp

/-- C1 (amended): on ICMP failure, the TCP fallback runs if and only if the
lower-cased failure reason — the trimmed stderr if non-empty, else the
trimmed stdout, else the default "ICMP ping failed" — contains a trigger
keyword.  When it runs, the probing port is the parsed port if one was
supplied and nonzero (a parsed port of 0, like a missing port, falls back
to the configured default 443) and a TCP-format table is returned after the
configured number of TCP connections to that port.  When it does not run,
the raw trimmed error/output text is returned verbatim and no TCP
connection is attempted. -/
theorem ping_icmp_failure_dispatch (env : Env) (target : String)
    (count timeout : Option Int) (t out err reason : String) (tr : List Eff)
    (p : Int)
    (hs : sanitize target = some t)
    (hi : icmp_ping env (splitHostPort t).1
            (pyOrInt count dfltValves.packet_count)
            (pyOrInt timeout dfltValves.timeout_seconds) = ((false, out, err), tr))
    (hreason : reason
      = pyLower (pyOrS (pyStrip err) (pyOrS (pyStrip out) "ICMP ping failed")))
    (hp : p = pyOrInt (splitHostPort t).2 dfltValves.tcp_default_port) :
    (fallbackTrigger reason = true →
      ping env dfltValves target count timeout =
        .ok (format_tcp_table (splitHostPort t).1 p
              (tcp_ping env (splitHostPort t).1 p dfltValves.tcp_attempts
                dfltValves.tcp_timeout_seconds).1.1
              dfltValves.tcp_attempts
              (tcp_ping env (splitHostPort t).1 p dfltValves.tcp_attempts
                dfltValves.tcp_timeout_seconds).1.2,
             tr ++ List.replicate dfltValves.tcp_attempts
                    (Eff.tcpConnect (splitHostPort t).1 p)))
    ∧ (fallbackTrigger reason = false →
        ping env dfltValves target count timeout
          = .ok (pyOrS (pyStrip err) (pyStrip out), tr)
        ∧ ∀ h' p', Eff.tcpConnect h' p' ∉ tr)
    ∧ (((splitHostPort t).2 = none ∨ (splitHostPort t).2 = some 0) →
        p = dfltValves.tcp_default_port)
    ∧ (∀ m, (splitHostPort t).2 = some m → m ≠ 0 → p = m) := by
  refine ⟨?_, ?_, ?_, ?_⟩
  · intro htrig
    rw [hreason] at htrig
    have hrep : (tcp_ping env (splitHostPort t).1 p dfltValves.tcp_attempts
        dfltValves.tcp_timeout_seconds).2
        = List.replicate dfltValves.tcp_attempts
            (Eff.tcpConnect (splitHostPort t).1 p) :=
      (tcp_ping_go_spec env (splitHostPort t).1 p dfltValves.tcp_timeout_seconds
        dfltValves.tcp_attempts 0).2
    simp only [ping, hs, hi, htrig, ← hp, hrep]
    simp
  · intro htrig
    constructor
    · have hne : ¬ (pyStrip err = "" ∧ pyStrip out = "") := by
        rintro ⟨he, ho⟩
        rw [hreason, he, ho] at htrig
        exact absurd htrig (by decide)
      have hout : pyOrS (pyStrip err) (pyOrS (pyStrip out) "Ping failed")
          = pyOrS (pyStrip err) (pyStrip out) := by
        by_cases he : pyStrip err = ""
        · have ho : pyStrip out ≠ "" := fun ho => hne ⟨he, ho⟩
          simp [pyOrS, he, ho]
        · simp [pyOrS, he]
      rw [hreason] at htrig
      simp only [ping, hs, hi, htrig, hout]
      simp
    · intro h' p' hmem
      rcases icmp_ping_trace_shape env (splitHostPort t).1
          (pyOrInt count dfltValves.packet_count)
          (pyOrInt timeout dfltValves.timeout_seconds) with hsh | ⟨cmd, hsh⟩ <;>
        rw [hi] at hsh <;> simp only at hsh <;> rw [hsh] at hmem <;> simp at hmem
  · intro hport
    rcases hport with hport | hport <;> rw [hp, hport] <;> rfl
  · intro m hm hm0
    rw [hp, hm]
    exact pyOrInt_some_ne m dfltValves.tcp_default_port hm0


set_option maxRecDepth 100000 in
/-- C6: on the specification's simulated POSIX output, the rendered ICMP
table row carries Sent=4, Received=4, Loss=0%, Min=10.0, Avg=12.5,
Max=15.0, Mdev=1.2; with the RTT line absent, the four RTT columns render
as the unknown marker `-` instead of failing the parse. -/
theorem icmp_posix_render :
    format_icmp_table "example.com" posixSim "" =
      some ("| Type | Host | Sent | Received | Loss | Min (ms) | Avg (ms) | Max (ms) | Mdev/Stddev (ms) |\n|---|---|---:|---:|---:|---:|---:|---:|---:|\n| ICMP | example.com | 4 | 4 | 0% | 10.0 | 12.5 | 15.0 | 1.2 |")
    ∧ format_icmp_table "example.com"
        "4 packets transmitted, 4 received, 0% packet loss" "" =
      some ("| Type | Host | Sent | Received | Loss | Min (ms) | Avg (ms) | Max (ms) | Mdev/Stddev (ms) |\n|---|---|---:|---:|---:|---:|---:|---:|---:|\n| ICMP | example.com | 4 | 4 | 0% | - | - | - | - |") :=
  ⟨by decide, by decide⟩

/-- Witness for C2: a shell-metacharacter target is rejected with no
subprocess and no socket effect. -/
theorem ping_invalid_target_witness :
    ping envSink dfltValves ";rm -rf /" none none = .ok ("Invalid target", []) :=
  ping_invalid_target envSink dfltValves ";rm -rf /" none none
    (Or.inr ⟨';', by decide, by decide⟩)

/-- Witness for C7: successful ICMP run with unrecognizable output yields
the minimal success table. -/
theorem ping_unparsed_success_witness :
    ping envUnparsed dfltValves "h" none none
      = .ok (minimalIcmpTable "h",
             [Eff.subprocess ["/usr/bin/ping", "-c", "4", "-W", "5", "h"]]) :=
  ping_unparsed_success envUnparsed dfltValves "h" none none "h" "pong" ""
    [Eff.subprocess ["/usr/bin/ping", "-c", "4", "-W", "5", "h"]]
    (by decide) (by decide) (by decide)

/-- Witness for C10: ICMP failure with empty stdout/stderr always reaches
the TCP fallback. -/
theorem ping_empty_failure_falls_back_witness :
    ping envEmptyFail dfltValves "h" none none =
      .ok (format_tcp_table "h" 443 (tcp_ping envEmptyFail "h" 443 4 2).1.1 4
             (tcp_ping envEmptyFail "h" 443 4 2).1.2,
           [Eff.subprocess ["/usr/bin/ping", "-c", "4", "-W", "5", "h"]]
             ++ (tcp_ping envEmptyFail "h" 443 4 2).2) :=
  ping_empty_failure_falls_back envEmptyFail dfltValves "h" none none "h" "" ""
    [Eff.subprocess ["/usr/bin/ping", "-c", "4", "-W", "5", "h"]]
    (by decide) (by decide) (by decide) (by decide)

/-- Witness for the amended C1: a permission-denied ICMP failure on a
portless target triggers the TCP fallback against the default port 443 and
returns the TCP-format table. -/
theorem ping_icmp_failure_dispatch_witness :
    ping envPerm dfltValves "example.com" none none =
      .ok (format_tcp_table "example.com" 443
            (tcp_ping envPerm "example.com" 443 4 2).1.1 4
            (tcp_ping envPerm "example.com" 443 4 2).1.2,
           [Eff.subprocess ["/usr/bin/ping", "-c", "4", "-W", "5", "example.com"]]
             ++ List.replicate 4 (Eff.tcpConnect "example.com" 443)) :=
  (ping_icmp_failure_dispatch envPerm "example.com" none none "example.com" ""
    "ping: socket: Operation not permitted"
    "ping: socket: operation not permitted"
    [Eff.subprocess ["/usr/bin/ping", "-c", "4", "-W", "5", "example.com"]]
    443 (by decide) (by decide) (by decide) (by decide)).1 (by decide)

set_option maxRecDepth 100000 in
/-- C1 counterexample, in two parts.  Part one: the target `h:0` parses to
the supplied port 0, yet the TCP fallback probes the default port 443 —
every logged connection effect carries port 443, not the parsed port.
Part two: with stderr "weird failure" and stdout "icmp blocked by admin",
the lower-cased combined error/output text contains the trigger substring
"icmp" (in either concatenation order), yet ping returns the stderr text
verbatim and attempts no TCP connection, because lines 255-266 inspect only
the non-empty stderr. -/
theorem ping_dispatch_counterexample :
    (splitHostPort "h:0" = ("h", some 0)
      ∧ ping envPerm dfltValves "h:0" none none =
          .ok ("| Type | Host | Port | Attempts | Success | Fail | Min (ms) | Avg (ms) | Max (ms) |\n|---|---|---:|---:|---:|---:|---:|---:|---:|\n| TCP | h | 443 | 4 | 0 | 4 | nan | nan | nan |\n\n| Attempt | Latency (ms) |\n|---:|---:|\n| 1 | failed |\n\n| Errors |\n|---|\n| timed out |\n| timed out |\n| timed out |",
               [Eff.subprocess ["/usr/bin/ping", "-c", "4", "-W", "5", "h"],
                Eff.tcpConnect "h" 443, Eff.tcpConnect "h" 443,
                Eff.tcpConnect "h" 443, Eff.tcpConnect "h" 443])
      ∧ (443 : Int) ≠ 0)
    ∧ (ping envMixed dfltValves "hx" none none =
          .ok ("weird failure",
               [Eff.subprocess ["/usr/bin/ping", "-c", "4", "-W", "5", "hx"]])
      ∧ containsSub "icmp".data
          (pyLower ("weird failure" ++ "icmp blocked by admin")).data = true
      ∧ containsSub "icmp".data
          (pyLower ("icmp blocked by admin" ++ "weird failure")).data = true) :=
  ⟨⟨by decide, by rfl, by decide⟩, ⟨by rfl, by decide, by decide⟩⟩
